import Mathlib

/-!
# Verification of the VoiceNote-AI summarization pipeline

Shallow embedding of the map-reduce summarization pipeline of the
VoiceNote-AI backend (`ai_summary_service.py`, `text_processing.py`,
`chunk_storage_service.py`, `transcription_service.py`) together with
proofs of the behavioural claims about it.

External collaborators (the OpenAI chat client, the Supabase blob store
and row store, the JSON parser, the system clock and the UUID source)
are modelled as oracle data supplied through environment structures:
each external call's outcome (returned value or raised exception) is a
field of the environment, so a run of an embedded function is the run of
the Python function in the world where those calls have those outcomes.
Raised Python exceptions are modelled with `Except String` carrying
`str(e)`.
-/

/-- Substring test: `pat` occurs somewhere in `s` (Python's `pat in s`). -/
def strContainsSub (s pat : String) : Bool := decide (pat.data <:+: s.data)

/-- `"already exists" in str(e) or "Duplicate" in str(e)` — the
duplicate-error test used by all storage helpers in the repository. -/
def is_duplicate_error (msg : String) : Bool :=
  strContainsSub msg "already exists" || strContainsSub msg "Duplicate"

/-- Characters matched by Python's whitespace handling (`\s` in `re`,
`str.strip()`): the ASCII whitespace characters; the rare non-ASCII Unicode
whitespace is out of scope of the texts considered here. -/
def python_ws (c : Char) : Bool :=
  c = ' ' || c = '\t' || c = '\n' || c = '\r' || c = '\x0b' || c = '\x0c'

/-- Drop leading and trailing whitespace characters of a character list. -/
def strip_ws (l : List Char) : List Char :=
  ((l.dropWhile python_ws).reverse.dropWhile python_ws).reverse

/-- Embeds Python's `str.strip()`. -/
def py_strip (s : String) : String := ⟨strip_ws s.data⟩

/-! ## Injectivity of the decimal representation of `Nat`

Needed to show the `chunk_1 … chunk_N` keys of a unified summary are
pairwise distinct.  We verify a decimal *reader* against `Nat.repr`. -/

/-- One step of reading a decimal numeral, most significant digit first. -/
def digitStep (a : Nat) (c : Char) : Nat := a * 10 + (c.toNat - 48)

/-- `pushNat a n` appends the decimal digits of `n` after those of `a`. -/
def pushNat (a n : Nat) : Nat :=
  if n < 10 then a * 10 + n else pushNat a (n / 10) * 10 + n % 10
termination_by n
decreasing_by exact Nat.div_lt_self (by omega) (by omega)

/-! ## Embedding of `ai_summary_service.py` (class `AISummaryService`) -/

/-- The optimized chunk-summary JSON built by `_create_chunk_summary_json`. -/
structure ChunkSummaryJson where
  chunk_id : String
  chunk_summary : String
deriving DecidableEq, Repr

/-- The three-field consolidated summary produced by
`_synthesize_chunk_summaries_to_consolidated`. -/
structure ConsolidatedSummary where
  executive_summary : String
  key_points : String
  detailed_summary : String
deriving DecidableEq, Repr

/-- The unified JSON output assembled at Step 3 of
`process_chunks_for_recording`.  `chunk_summaries` is the insertion-ordered
dict `{chunk_1: …, …}`, modelled as an association list.  `summary_id` is
`none` until `_store_unified_summary_with_metadata` adds it to the dict. -/
structure UnifiedSummary where
  recording_id : String
  created_at : String
  total_chunks : Nat
  successful_summaries : Nat
  failed_summaries : Nat
  chunk_summaries : List (String × ChunkSummaryJson)
  consolidated_summary : ConsolidatedSummary
  summary_id : Option String
deriving DecidableEq, Repr

/-- The dictionary returned by `process_chunks_for_recording`.  The three
optional fields are present only on the path that persisted a unified
summary (the early-error returns carry only status/message/recording_id). -/
structure RunResult where
  status : String
  message : String
  recording_id : String
  unified_summary : Option UnifiedSummary
  summary_id : Option String
  summary_path : Option String
deriving DecidableEq, Repr

/-- Environment of external collaborators for one pipeline run: every
outcome of an external call (the per-chunk chat call keyed by chunk id and
text, the consolidation chat call keyed by its input summaries, `json.loads`,
the Supabase storage upload/update and table insert/select, `uuid.uuid4()`
and `datetime.now()`).  An `Except.error e` value models the call raising an
exception with `str(e)`. -/
structure Env where
  chunkCall : String → String → Except String String
  consolidateCall : List ChunkSummaryJson → Except String String
  parseJson : String → Option ConsolidatedSummary
  uploadResult : String → Except String Unit
  updateResult : String → Except String Unit
  insertResult : String → Except String (List String)
  selectExisting : String → List String
  summaryUuid : String
  now : String

/-- External calls a pipeline run performs, in order.  Used to state which
collaborators a run did (or did not) invoke. -/
inductive PipelineEvent where
  | chunkModelCall (chunk_id : String)
  | consolidateModelCall (inputs : List ChunkSummaryJson)
  | storeUnified (recording_id : String)
deriving DecidableEq, Repr

/-- Embeds `_generate_chunk_summary`: the whole body is wrapped in
`try/except Exception`, so the function never raises — a failing chat call
yields the error-marker string `"Error generating summary: {str(e)}"` as the
returned summary text, and a successful call yields the stripped content. -/
def generate_chunk_summary (call : Except String String) : String :=
  match call with
  | .ok summary_text => py_strip summary_text
  | .error e => "Error generating summary: " ++ e

/-- Embeds `_create_chunk_summary_json` (pure dict construction). -/
def create_chunk_summary_json (chunk_id chunk_summary : String) : ChunkSummaryJson :=
  { chunk_id := chunk_id, chunk_summary := chunk_summary }

/-- Embeds the Step-1 per-chunk loop of `process_chunks_for_recording`,
returning `(chunk_summaries, successful_summaries, failed_summaries)`.
The loop body's `try` block can only raise where its callees raise, and both
callees are total: `_generate_chunk_summary` catches every `Exception` of the
chat call internally (returning the error marker) and
`_create_chunk_summary_json` performs no call at all.  The `except` branch of
the loop (which would skip the append and increment `failed_summaries`) is
therefore unreachable, so every chunk is appended and counted successful. -/
def chunk_summary_loop (env : Env) : List (String × String) → List ChunkSummaryJson × Nat × Nat
  | [] => ([], 0, 0)
  | (chunk_id, chunk_text) :: rest =>
    let chunk_summary_text := generate_chunk_summary (env.chunkCall chunk_id chunk_text)
    let j := create_chunk_summary_json chunk_id chunk_summary_text
    let (l, s, f) := chunk_summary_loop env rest
    (j :: l, s + 1, f)

/-- Embeds the numbered-key conversion of Step 3:
`for i, cs in enumerate(chunk_summaries, 1): dict[f"chunk_{i}"] = …`. -/
def number_chunk_summaries (i : Nat) : List ChunkSummaryJson → List (String × ChunkSummaryJson)
  | [] => []
  | c :: cs => ("chunk_" ++ toString i, c) :: number_chunk_summaries (i + 1) cs

/-- Embeds `_synthesize_chunk_summaries_to_consolidated`: on a successful
chat call whose text parses as JSON, returns the parsed object; on
`json.JSONDecodeError`, the truncation fallback; when the call itself
raises, the error-text record.  The function never raises. -/
def synthesize_chunk_summaries_to_consolidated (env : Env)
    (chunk_summaries : List ChunkSummaryJson) : ConsolidatedSummary :=
  match env.consolidateCall chunk_summaries with
  | .ok synthesis_text =>
    match env.parseJson synthesis_text with
    | some consolidated_summaries => consolidated_summaries
    | none =>
      { executive_summary := synthesis_text.take 300 ++ "..."
        key_points := "• " ++ synthesis_text.take 200 ++ "..."
        detailed_summary := synthesis_text }
  | .error e =>
    { executive_summary := "Error synthesizing summary: " ++ e
      key_points := "• Error occurred during synthesis"
      detailed_summary := "Error synthesizing summary: " ++ e }

/-- Embeds `_store_unified_summary_with_metadata`.  Returns
`(summary_id, summary_path, created_rows)` where `created_rows` lists the
metadata rows the call inserted, or the raised exception.  A non-duplicate
upload failure re-raises; a duplicate-class failure falls back to
`storage.update` (whose own failure re-raises).  A failing table insert is
only logged — the `existing_response` check decides the log message, and
neither branch re-raises ("Don't raise - storage succeeded even if DB
update failed"). -/
def store_unified_summary_with_metadata (env : Env) (recording_id : String) :
    Except String (String × String × List String) :=
  let summary_id := env.summaryUuid
  let summary_file_path := summary_id ++ ".json"
  let blob_step : Except String Unit :=
    match env.uploadResult summary_file_path with
    | .ok _ => .ok ()
    | .error upload_error =>
      if is_duplicate_error upload_error then env.updateResult summary_file_path
      else .error upload_error
  match blob_step with
  | .error e => .error e
  | .ok _ =>
    let summary_path := "Summaries/" ++ summary_file_path
    let created_rows : List String :=
      match env.insertResult summary_id with
      | .ok _data => [summary_id]
      | .error _db_error =>
        if (env.selectExisting summary_id).isEmpty then
          []  -- insert failure logged, deliberately not re-raised
        else
          []  -- metadata row already exists, treated as success
    .ok (summary_id, summary_path, created_rows)

/-- Embeds the status computation of `process_chunks_for_recording`
(lines 126-135), returning `(status, message)`. -/
def determine_status (successful_summaries failed_summaries : Nat) : String × String :=
  if successful_summaries > 0 ∧ failed_summaries = 0 then
    ("success", "Successfully generated summaries for all " ++
      toString successful_summaries ++ " chunks and consolidated summary")
  else if successful_summaries > 0 ∧ failed_summaries > 0 then
    ("partial_success", "Generated summaries for " ++ toString successful_summaries ++
      " chunks, failed for " ++ toString failed_summaries ++ " chunks")
  else
    ("error", "Failed to generate summaries for all " ++
      toString failed_summaries ++ " chunks")

/-- Embeds the Step-3 construction of the `unified_output` dict.  The
`consolidated_summary` entry is the value computed by the Step-2 `try`
block; since `_synthesize_chunk_summaries_to_consolidated` never raises,
the Step-2 `except` fallback dict is unreachable. -/
def build_unified_summary (env : Env) (recording_id : String)
    (chunk_data : List (String × String)) : UnifiedSummary :=
  let (chunk_summaries, successful_summaries, failed_summaries) :=
    chunk_summary_loop env chunk_data
  { recording_id := recording_id
    created_at := env.now
    total_chunks := chunk_data.length
    successful_summaries := successful_summaries
    failed_summaries := failed_summaries
    chunk_summaries := number_chunk_summaries 1 chunk_summaries
    consolidated_summary := synthesize_chunk_summaries_to_consolidated env chunk_summaries
    summary_id := none }

/-- Embeds `process_chunks_for_recording`, also returning the list of
external calls the run performed.  The outermost `try/except` surfaces an
exception raised by `_store_unified_summary_with_metadata` (the only callee
that can raise) as the final `error` return of lines 148-154. -/
def process_chunks_for_recording (env : Env) (recording_id : String)
    (chunk_data : List (String × String)) : RunResult × List PipelineEvent :=
  if chunk_data.isEmpty then
    ({ status := "error", message := "No chunks provided for summarization",
       recording_id := recording_id, unified_summary := none,
       summary_id := none, summary_path := none }, [])
  else
    let callEvents := chunk_data.map fun p => PipelineEvent.chunkModelCall p.1
    let (chunk_summaries, successful_summaries, failed_summaries) :=
      chunk_summary_loop env chunk_data
    if chunk_summaries.isEmpty then
      ({ status := "error", message := "Failed to generate any chunk summaries",
         recording_id := recording_id, unified_summary := none,
         summary_id := none, summary_path := none }, callEvents)
    else
      let unified := build_unified_summary env recording_id chunk_data
      let events := callEvents ++
        [PipelineEvent.consolidateModelCall chunk_summaries,
         PipelineEvent.storeUnified recording_id]
      match store_unified_summary_with_metadata env recording_id with
      | .error e =>
        ({ status := "error", message := "Error in summarization process: " ++ e,
           recording_id := recording_id, unified_summary := none,
           summary_id := none, summary_path := none }, events)
      | .ok (sid, spath, _created) =>
        let (status, message) := determine_status successful_summaries failed_summaries
        ({ status := status, message := message, recording_id := recording_id,
           unified_summary := some { unified with summary_id := some sid },
           summary_id := some sid, summary_path := some spath }, events)

/-! ## Embedding of `text_processing.py` -/

/-- Embeds `re.sub(r'\s+', ' ', text)`: every maximal run of whitespace
characters is replaced by one single space. -/
def collapse_whitespace : List Char → List Char
  | [] => []
  | [c] => if python_ws c then [' '] else [c]
  | c :: d :: rest =>
    if python_ws c && python_ws d then collapse_whitespace (d :: rest)
    else (if python_ws c then ' ' else c) :: collapse_whitespace (d :: rest)

/-- Embeds `_clean_and_normalize_text`: collapse whitespace runs, strip,
lowercase (in that order, as in the source). -/
def clean_and_normalize_text (text : String) : String :=
  ⟨(strip_ws (collapse_whitespace text.data)).map Char.toLower⟩

/-- Modelled from the spec: the text splitter used by `_chunk_with_langchain`
is `langchain.text_splitter.RecursiveCharacterTextSplitter.split_text`,
external to this repository.  Spec §4.1 describes it as a recursive boundary
search over a separator hierarchy that "degrades to hard character cuts" and
produces chunks within the character budget; it yields no chunk for empty
input.  For the claims below only how many chunks are produced matters, not
where their boundaries fall, so the splitter is modelled at the degenerate
hard-cut level: consecutive slices of at most `chunk_size_chars` characters,
none for the empty text. -/
def split_text_model (chunk_size_chars : Nat) : List Char → List (List Char)
  | [] => []
  | c :: cs =>
    (c :: cs.take (chunk_size_chars - 1)) ::
      split_text_model chunk_size_chars (cs.drop (chunk_size_chars - 1))
termination_by l => l.length
decreasing_by simp [List.length_drop]; omega

/-- Embeds `_chunk_with_langchain`: converts the token budgets to character
budgets (1 token ≈ 4 chars) and splits.  The overlap budget only moves chunk
boundaries, which the splitter model abstracts over. -/
def chunk_with_langchain (chunk_size_tokens _chunk_overlap_tokens : Nat)
    (text : String) : List String :=
  let chunk_size_chars := chunk_size_tokens * 4
  (split_text_model chunk_size_chars text.data).map fun l => ⟨l⟩

/-- Embeds `preprocess_and_chunk_text`: clean and normalize, then chunk. -/
def preprocess_and_chunk_text (text : String)
    (chunk_size_tokens chunk_overlap_tokens : Nat) : List String :=
  chunk_with_langchain chunk_size_tokens chunk_overlap_tokens
    (clean_and_normalize_text text)

/-! ## Embedding of `chunk_storage_service.py` (class `ChunkStorageService`)

The Supabase collaborators are the same oracle fields of `Env` used by
`AISummaryService` (`uploadResult`, `insertResult`, `selectExisting`). -/

/-- Embeds the per-chunk body of `store_chunks` iterated over the
`(chunk_id, chunk_text)` pairs (the freshly generated `uuid.uuid4()` chunk
ids zipped with the chunks).  Returns the chunk ids whose metadata row the
run inserted, or the raised exception.  A duplicate-class upload error skips
the upload and continues; any other upload error re-raises.  An insert error
re-raises only when no row for that chunk id already exists. -/
def store_chunks_loop (env : Env) (recording_id transcription_id : String) :
    List (String × String) → Except String (List String)
  | [] => .ok []
  | (chunk_id, _chunk_text) :: rest =>
    let chunk_file_path :=
      recording_id ++ "/" ++ transcription_id ++ "/" ++ chunk_id ++ ".json"
    let blob_step : Except String Unit :=
      match env.uploadResult chunk_file_path with
      | .ok _ => .ok ()
      | .error upload_error =>
        if is_duplicate_error upload_error then .ok ()  -- file exists, skip
        else .error upload_error
    match blob_step with
    | .error e => .error e
    | .ok _ =>
      match env.insertResult chunk_id with
      | .ok _data =>
        match store_chunks_loop env recording_id transcription_id rest with
        | .ok created => .ok (chunk_id :: created)
        | .error e => .error e
      | .error db_error =>
        if (env.selectExisting chunk_id).isEmpty then .error db_error
        else store_chunks_loop env recording_id transcription_id rest

/-- Embeds `store_chunks` up to its persistence behaviour.  `chunk_uuids`
supplies the `uuid.uuid4()` values generated for the chunks.  The subsequent
`_trigger_ai_summarization` call absorbs every exception of the
summarization run (returning an error dict instead), so the raising
behaviour of `store_chunks` is exactly that of the storage loop; the
summarization run itself is the separately embedded
`process_chunks_for_recording`. -/
def store_chunks (env : Env) (recording_id transcription_id : String)
    (chunks : List String) (chunk_uuids : List String) (_user_id : String) :
    Except String (List String) :=
  store_chunks_loop env recording_id transcription_id (chunk_uuids.zip chunks)

/-- Embeds Python's `str.replace(pat, rep)` (all non-overlapping
occurrences, scanned left to right).  The fuel argument, always called with
the length of the scanned list, only makes the recursion structural. -/
def replace_go (pat rep : List Char) : Nat → List Char → List Char
  | _, [] => []
  | 0, l => l
  | fuel + 1, c :: cs =>
    if pat.isPrefixOf (c :: cs) then
      rep ++ replace_go pat rep fuel ((c :: cs).drop pat.length)
    else
      c :: replace_go pat rep fuel cs

/-- Embeds Python's `str.replace` on `String`. -/
def str_replace (s pat rep : String) : String :=
  ⟨replace_go pat.data rep.data s.data.length s.data⟩

/-! ## Embedding of `transcription_service.py` (class `TranscriptionService`) -/

/-- Row of the `recordings` table as consumed by `summarize_recording`;
`status = none` models a row without the `status` key
(`recording_info.get('status', 'recorded')`). -/
structure RecordingRow where
  status : Option String
deriving DecidableEq, Repr

/-- Row of the `summaries` metadata table. -/
structure SummaryRow where
  summary_id : String
  summary_path : String
deriving DecidableEq, Repr

/-- Row of the `transcription` metadata table. -/
structure TranscriptionRow where
  transcription_id : String
  transcription_path : String
deriving DecidableEq, Repr

/-- The dictionary returned by `_get_existing_summary` on success. -/
structure ExistingSummary where
  summary_metadata : SummaryRow
  unified_summary : UnifiedSummary
  summary_id : String
  summary_path : String
deriving DecidableEq, Repr

/-- Environment of the orchestrator `summarize_recording` for one recording:
the database rows its queries return and the outcomes of its collaborator
calls.  `downloadSummary` is the blob download plus `json.loads` of a
`Summaries/` object (`none` models any failure inside `_get_existing_summary`,
which that helper absorbs into `None`); `summariesRows` is ordered by
`created_at` descending as in the query, so the `limit(1)` row is its head;
`transcriptionRows` is in query order, so `data[-1]` is its last element. -/
structure OrchEnv where
  recordingInfo : Option RecordingRow
  summariesRows : List SummaryRow
  downloadSummary : String → Option UnifiedSummary
  transcriptionRows : List TranscriptionRow
  downloadTranscription : String → Except String String
  transcribeStatus : String
  processOutcome : Except String Unit
  postProcessSummary : Option ExistingSummary

/-- Collaborator work performed by a `summarize_recording` run.  A
`textProcessing` event stands for the whole `_trigger_text_processing`
call, inside which chunking, the per-chunk model calls and the
consolidation model call happen; a run whose event list is empty performed
none of those. -/
inductive OrchEvent where
  | transcribeRecording
  | textProcessing (transcription_id : String)
  | statusUpdate (status : String)
deriving DecidableEq, Repr

/-- The dictionary returned by `summarize_recording`.  `already_existed` is
the `'already_existed': True` key of the short-circuit return; the other
returns have no such key, modelled as `false`. -/
structure SummarizeResult where
  status : String
  message : String
  recording_id : String
  unified_summary : Option UnifiedSummary
  summary_id : Option String
  summary_path : Option String
  already_existed : Bool
deriving DecidableEq, Repr

/-- Embeds `_get_existing_summary`: take the most recent `summaries` row,
strip the bucket prefix from its path, download and parse the blob;
any failure yields `None`. -/
def get_existing_summary (env : OrchEnv) : Option ExistingSummary :=
  match env.summariesRows.head? with
  | none => none
  | some summary_metadata =>
    let filename := str_replace summary_metadata.summary_path "Summaries/" ""
    match env.downloadSummary filename with
    | none => none
    | some unified_summary =>
      some { summary_metadata := summary_metadata
             unified_summary := unified_summary
             summary_id := summary_metadata.summary_id
             summary_path := summary_metadata.summary_path }

/-- Embeds lines 310-368 of `summarize_recording` (the body after the
already-summarized check): if no `transcription` row exists, run the full
`transcribe_recording` pipeline (whose returned dict carries no
`unified_summary`/`summary_id`/`summary_path` keys, hence the `None`
fields); otherwise download the most recent transcription, trigger text
processing (chunking + summarization), mark the recording `summarized`,
and best-effort re-read the generated summary (`postProcessSummary` is the
outcome of that second `_get_existing_summary` query, run after the
pipeline has written to the database). -/
def summarize_recording_rest (env : OrchEnv) (recording_id : String) :
    SummarizeResult × List OrchEvent :=
  match env.transcriptionRows.getLast? with
  | none =>
    if env.transcribeStatus = "success" then
      ({ status := "success",
         message := "Transcription and summary generation completed successfully",
         recording_id := recording_id, unified_summary := none,
         summary_id := none, summary_path := none, already_existed := false },
       [OrchEvent.transcribeRecording])
    else
      ({ status := "error", message := "Failed to transcribe recording",
         recording_id := recording_id, unified_summary := none,
         summary_id := none, summary_path := none, already_existed := false },
       [OrchEvent.transcribeRecording])
  | some latest_transcription =>
    let transcription_path :=
      str_replace latest_transcription.transcription_path "Transcription/" ""
    match env.downloadTranscription transcription_path with
    | .error e =>
      ({ status := "error", message := "Error generating summary: " ++ e,
         recording_id := recording_id, unified_summary := none,
         summary_id := none, summary_path := none, already_existed := false }, [])
    | .ok _transcription_text =>
      match env.processOutcome with
      | .error e =>
        ({ status := "error", message := "Error generating summary: " ++ e,
           recording_id := recording_id, unified_summary := none,
           summary_id := none, summary_path := none, already_existed := false },
         [OrchEvent.textProcessing latest_transcription.transcription_id])
      | .ok _ =>
        let events := [OrchEvent.textProcessing latest_transcription.transcription_id,
                       OrchEvent.statusUpdate "summarized"]
        match env.postProcessSummary with
        | some existing_summary =>
          ({ status := "success",
             message := "Summary generation completed successfully",
             recording_id := recording_id,
             unified_summary := some existing_summary.unified_summary,
             summary_id := some existing_summary.summary_id,
             summary_path := some existing_summary.summary_path,
             already_existed := false }, events)
        | none =>
          ({ status := "success",
             message := "Summary generation completed successfully",
             recording_id := recording_id, unified_summary := none,
             summary_id := none, summary_path := none,
             already_existed := false }, events)

/-- Embeds `summarize_recording`, also returning the collaborator work the
run performed.  A recording already in status `summarized` whose persisted
summary is retrievable short-circuits: the previously stored unified summary
is returned as-is and no transcription, chunking or model call happens. -/
def summarize_recording (env : OrchEnv) (recording_id : String) :
    SummarizeResult × List OrchEvent :=
  match env.recordingInfo with
  | none =>
    ({ status := "error", message := "Recording " ++ recording_id ++ " not found",
       recording_id := recording_id, unified_summary := none,
       summary_id := none, summary_path := none, already_existed := false }, [])
  | some recording_info =>
    let current_status := recording_info.status.getD "recorded"
    if current_status = "summarized" then
      match get_existing_summary env with
      | some existing_summary =>
        ({ status := "success",
           message := "Summaries already exist for this recording",
           recording_id := recording_id,
           unified_summary := some existing_summary.unified_summary,
           summary_id := some existing_summary.summary_id,
           summary_path := some existing_summary.summary_path,
           already_existed := true }, [])
      | none => summarize_recording_rest env recording_id
    else summarize_recording_rest env recording_id

/-- A concrete collaborator environment in which every external call
succeeds; used to instantiate the universally quantified theorems. -/
def sampleEnv : Env :=
  { chunkCall := fun _ _ => .ok "chunk summary text"
    consolidateCall := fun _ => .ok "synthesis text"
    parseJson := fun _ =>
      some { executive_summary := "exec", key_points := "points",
             detailed_summary := "details" }
    uploadResult := fun _ => .ok ()
    updateResult := fun _ => .ok ()
    insertResult := fun _ => .ok ["row"]
    selectExisting := fun _ => []
    summaryUuid := "uuid-0"
    now := "2026-01-01T00:00:00" }

/-- Environment of the C2 scenario: three chunks, the chat call for chunk
`c2` raises a timeout, the calls for `c1` and `c3` succeed, and all storage
operations succeed. -/
def c2Env : Env :=
  { sampleEnv with
    chunkCall := fun chunk_id _ =>
      if chunk_id = "c2" then .error "Request timed out."
      else .ok ("summary of " ++ chunk_id) }

/-- The three-chunk input of the C2 scenario. -/
def c2Chunks : List (String × String) :=
  [("c1", "text one"), ("c2", "text two"), ("c3", "text three")]

/-- The unified summary produced by a one-chunk run in `sampleEnv`. -/
def sampleUnified : UnifiedSummary :=
  { recording_id := "rec", created_at := "2026-01-01T00:00:00", total_chunks := 1,
    successful_summaries := 1, failed_summaries := 0,
    chunk_summaries :=
      [("chunk_1", { chunk_id := "a", chunk_summary := "chunk summary text" })],
    consolidated_summary :=
      { executive_summary := "exec", key_points := "points",
        detailed_summary := "details" },
    summary_id := some "uuid-0" }

/-- Environment in which the blob upload succeeds but the metadata-row
insert fails with a non-duplicate error while no row for the identifier
exists. -/
def c6RowFailEnv : Env :=
  { sampleEnv with insertResult := fun _ => .error "connection reset by peer" }

/-- Environment in which the blob upload fails with a non-duplicate
error. -/
def c6BlobFailEnv : Env :=
  { sampleEnv with uploadResult := fun _ => .error "storage backend unavailable" }

/-- Orchestrator environment of a recording already summarized, with its
unified summary persisted under `Summaries/sid-1.json`. -/
def c7Env : OrchEnv :=
  { recordingInfo := some { status := some "summarized" }
    summariesRows := [{ summary_id := "sid-1", summary_path := "Summaries/sid-1.json" }]
    downloadSummary := fun fname => if fname = "sid-1.json" then some sampleUnified else none
    transcriptionRows := []
    downloadTranscription := fun _ => .ok "transcript"
    transcribeStatus := "success"
    processOutcome := .ok ()
    postProcessSummary := none }

/-- The `ExistingSummary` that `_get_existing_summary` yields in `c7Env`. -/
def c7Existing : ExistingSummary :=
  { summary_metadata := { summary_id := "sid-1", summary_path := "Summaries/sid-1.json" }
    unified_summary := sampleUnified
    summary_id := "sid-1"
    summary_path := "Summaries/sid-1.json" }

/-- Environment of a retried run: every blob path already exists and every
metadata row already exists. -/
def c8RetryEnv : Env :=
  { sampleEnv with
    uploadResult := fun _ => .error "Duplicate object already exists"
    updateResult := fun _ => .ok ()
    insertResult := fun _ => .error "duplicate key value violates unique constraint"
    selectExisting := fun _ => ["row"] }

/-- Environment whose consolidation call raises a timeout. -/
def c9RaiseEnv : Env :=
  { sampleEnv with
    consolidateCall := fun _ => .error "Request timed out."
    parseJson := fun _ => none }

/-- Environment whose consolidation call returns text that does not parse
as JSON. -/
def c9ParseFailEnv : Env :=
  { sampleEnv with
    consolidateCall := fun _ => .ok "plain text response"
    parseJson := fun _ => none }

theorem pushNat_zero (n : Nat) : pushNat 0 n = n := by
  induction n using Nat.strong_induction_on with
  | _ n ih =>
    rw [pushNat]
    by_cases h : n < 10
    · simp [h]
    · have hd : n / 10 < n := Nat.div_lt_self (by omega) (by omega)
      simp only [h, if_false]
      rw [ih (n / 10) hd]
      omega

theorem digitChar_toNat : ∀ k < 10, (Nat.digitChar k).toNat - 48 = k := by decide

theorem toDigitsCore_foldl (f : Nat) : ∀ (n : Nat) (l : List Char) (a : Nat), n < f →
    List.foldl digitStep a (Nat.toDigitsCore 10 f n l) =
      List.foldl digitStep (pushNat a n) l := by
  induction f with
  | zero => intro n l a h; omega
  | succ f ih =>
    intro n l a h
    simp only [Nat.toDigitsCore]
    by_cases h10 : n / 10 = 0
    · have hn : n < 10 := by omega
      simp only [h10, if_true, List.foldl]
      have hd : digitStep a (Nat.digitChar (n % 10)) = a * 10 + n := by
        have := digitChar_toNat (n % 10) (by omega)
        simp only [digitStep, this]
        omega
      rw [hd, pushNat]
      simp [hn]
    · have hn : 10 ≤ n := by omega
      simp only [h10, if_false]
      rw [ih (n / 10) _ a (by omega)]
      simp only [List.foldl]
      have hd : digitStep (pushNat a (n / 10)) (Nat.digitChar (n % 10)) =
          pushNat a (n / 10) * 10 + n % 10 := by
        have := digitChar_toNat (n % 10) (by omega)
        simp only [digitStep, this]
      rw [hd]
      conv_rhs => rw [pushNat]
      simp [show ¬ n < 10 by omega]

theorem foldl_digitStep_repr (n : Nat) :
    List.foldl digitStep 0 (Nat.repr n).data = n := by
  have h : (Nat.repr n).data = Nat.toDigitsCore 10 (n + 1) n [] := by
    simp [Nat.repr, Nat.toDigits, List.asString]
  rw [h, toDigitsCore_foldl (n + 1) n [] 0 (by omega)]
  simp [List.foldl, pushNat_zero]

theorem nat_repr_injective {m n : Nat} (h : Nat.repr m = Nat.repr n) : m = n := by
  have hm := foldl_digitStep_repr m
  rw [h, foldl_digitStep_repr n] at hm
  omega

theorem toString_nat_eq_repr (n : Nat) : toString n = Nat.repr n := rfl

theorem toString_nat_injective {m n : Nat} (h : toString m = toString n) : m = n :=
  nat_repr_injective (by simpa [toString_nat_eq_repr] using h)

/-! ## Structural lemmas about the pipeline embedding -/

theorem chunk_summary_loop_eq (env : Env) (chunk_data : List (String × String)) :
    chunk_summary_loop env chunk_data =
      (chunk_data.map fun p =>
        create_chunk_summary_json p.1 (generate_chunk_summary (env.chunkCall p.1 p.2)),
       chunk_data.length, 0) := by
  induction chunk_data with
  | nil => rfl
  | cons hd tl ih => cases hd; simp [chunk_summary_loop, ih]

theorem number_chunk_summaries_keys (l : List ChunkSummaryJson) : ∀ i : Nat,
    (number_chunk_summaries i l).map Prod.fst =
      (List.range l.length).map (fun k => "chunk_" ++ toString (i + k)) := by
  induction l with
  | nil => intro i; rfl
  | cons c cs ih =>
    intro i
    simp only [number_chunk_summaries, List.map_cons, List.length_cons,
      List.range_succ_eq_map, List.map_map]
    rw [ih (i + 1)]
    refine congrArg₂ _ (by simp) ?_
    apply List.map_congr_left
    intro a _
    simp only [Function.comp_apply]
    refine congrArg _ (congrArg _ ?_)
    omega

theorem chunk_key_injective :
    Function.Injective (fun k : Nat => "chunk_" ++ toString (k + 1)) := by
  intro k1 k2 h
  simp only at h
  have hd := congrArg String.data h
  rw [String.data_append, String.data_append] at hd
  have := List.append_cancel_left hd
  have := toString_nat_injective (String.ext this)
  omega

theorem split_text_model_nil (n : Nat) : split_text_model n [] = [] := by
  rw [split_text_model]

theorem split_text_model_cons (n : Nat) (c : Char) (cs : List Char) :
    split_text_model n (c :: cs) =
      (c :: cs.take (n - 1)) :: split_text_model n (cs.drop (n - 1)) := by
  rw [split_text_model]

theorem split_text_model_eq_nil_iff (n : Nat) (l : List Char) :
    split_text_model n l = [] ↔ l = [] := by
  cases l with
  | nil => simp [split_text_model_nil]
  | cons c cs => simp [split_text_model_cons]

theorem chunk_key_inj {a b : Nat} (h : "chunk_" ++ toString a = "chunk_" ++ toString b) :
    a = b := by
  have hd := congrArg String.data h
  rw [String.data_append, String.data_append] at hd
  exact toString_nat_injective (String.ext (List.append_cancel_left hd))

theorem build_unified_summary_eq (env : Env) (rid : String)
    (cd : List (String × String)) :
    build_unified_summary env rid cd =
      { recording_id := rid, created_at := env.now, total_chunks := cd.length,
        successful_summaries := cd.length, failed_summaries := 0,
        chunk_summaries := number_chunk_summaries 1 (cd.map fun p =>
          create_chunk_summary_json p.1 (generate_chunk_summary (env.chunkCall p.1 p.2))),
        consolidated_summary := synthesize_chunk_summaries_to_consolidated env
          (cd.map fun p =>
            create_chunk_summary_json p.1 (generate_chunk_summary (env.chunkCall p.1 p.2))),
        summary_id := none } := by
  simp [build_unified_summary, chunk_summary_loop_eq]

theorem process_store_ok (env : Env) (rid : String) (c : String × String)
    (cs : List (String × String)) (sid spath : String) (created : List String)
    (hstore : store_unified_summary_with_metadata env rid = .ok (sid, spath, created)) :
    process_chunks_for_recording env rid (c :: cs) =
      ({ status := "success",
         message := "Successfully generated summaries for all " ++
           toString (c :: cs).length ++ " chunks and consolidated summary",
         recording_id := rid,
         unified_summary :=
           some { build_unified_summary env rid (c :: cs) with summary_id := some sid },
         summary_id := some sid, summary_path := some spath },
       ((c :: cs).map fun p => PipelineEvent.chunkModelCall p.1) ++
        [PipelineEvent.consolidateModelCall ((c :: cs).map fun p =>
           create_chunk_summary_json p.1 (generate_chunk_summary (env.chunkCall p.1 p.2))),
         PipelineEvent.storeUnified rid]) := by
  simp only [process_chunks_for_recording, chunk_summary_loop_eq, List.isEmpty_cons,
    List.map_cons, hstore, determine_status]
  simp [List.length_cons]

theorem process_store_error (env : Env) (rid : String) (c : String × String)
    (cs : List (String × String)) (e : String)
    (hstore : store_unified_summary_with_metadata env rid = .error e) :
    process_chunks_for_recording env rid (c :: cs) =
      ({ status := "error", message := "Error in summarization process: " ++ e,
         recording_id := rid, unified_summary := none,
         summary_id := none, summary_path := none },
       ((c :: cs).map fun p => PipelineEvent.chunkModelCall p.1) ++
        [PipelineEvent.consolidateModelCall ((c :: cs).map fun p =>
           create_chunk_summary_json p.1 (generate_chunk_summary (env.chunkCall p.1 p.2))),
         PipelineEvent.storeUnified rid]) := by
  simp only [process_chunks_for_recording, chunk_summary_loop_eq, List.isEmpty_cons,
    List.map_cons, hstore]
  simp

/-- C1: for every non-empty chunk_data list passed to
`process_chunks_for_recording`, the `chunk_summaries` mapping of the unified
summary it builds has keys exactly `chunk_1 … chunk_N` in order — no gaps,
no duplicates — with `N` equal to the `total_chunks` field, which is the
length of `chunk_data`; this holds whatever the outcomes of the per-chunk
chat calls are (a failing call still contributes its error-marker entry). -/
theorem c1_unified_summary_keys (env : Env) (rid : String)
    (cd : List (String × String)) (h : cd ≠ []) :
    ((build_unified_summary env rid cd).chunk_summaries.map Prod.fst =
      (List.range (build_unified_summary env rid cd).total_chunks).map
        (fun k => "chunk_" ++ toString (k + 1))) ∧
    (build_unified_summary env rid cd).total_chunks = cd.length ∧
    ((build_unified_summary env rid cd).chunk_summaries.map Prod.fst).Nodup := by
  have hb := build_unified_summary_eq env rid cd
  refine ⟨?_, by rw [hb], ?_⟩
  · rw [hb]
    dsimp only
    rw [number_chunk_summaries_keys]
    simp only [List.length_map]
    apply List.map_congr_left
    intro a _
    exact congrArg _ (congrArg _ (by omega))
  · rw [hb]
    dsimp only
    rw [number_chunk_summaries_keys]
    refine List.Nodup.map ?_ (List.nodup_range _)
    intro a b hab
    have := chunk_key_inj hab
    omega

/-- Witness for C1 at a concrete two-chunk input. -/
theorem c1_unified_summary_keys_witness :
    ([(("a", "x") : String × String), ("b", "y")] ≠ []) ∧
    (((build_unified_summary sampleEnv "rec" [("a", "x"), ("b", "y")]).chunk_summaries.map
        Prod.fst =
      (List.range
          (build_unified_summary sampleEnv "rec" [("a", "x"), ("b", "y")]).total_chunks).map
        (fun k => "chunk_" ++ toString (k + 1))) ∧
     (build_unified_summary sampleEnv "rec" [("a", "x"), ("b", "y")]).total_chunks =
       [(("a", "x") : String × String), ("b", "y")].length ∧
     ((build_unified_summary sampleEnv "rec" [("a", "x"), ("b", "y")]).chunk_summaries.map
        Prod.fst).Nodup) :=
  ⟨by decide, c1_unified_summary_keys sampleEnv "rec" [("a", "x"), ("b", "y")] (by decide)⟩

/-- C2: evaluation of the code at the claimed scenario (3 chunks, the model
call of the 2nd raises a timeout).  Chunk 2 does carry the error-marker
summary text and the consolidation call does receive all 3 summaries
including the marker, but — because `_generate_chunk_summary` catches the
exception internally and returns the marker as an ordinary summary — the
run counts chunk 2 as successful: the returned status is `success` with
`successful_summaries == 3` and `failed_summaries == 0`, not
`partial_success` with 2 and 1 as the claim states. -/
theorem c2_failing_input_eval :
    ((process_chunks_for_recording c2Env "rec1" c2Chunks).1.status = "success") ∧
    (((process_chunks_for_recording c2Env "rec1" c2Chunks).1.unified_summary.map fun u =>
       (u.successful_summaries, u.failed_summaries, u.total_chunks)) = some (3, 0, 3)) ∧
    (((process_chunks_for_recording c2Env "rec1" c2Chunks).1.unified_summary.map fun u =>
       u.chunk_summaries.lookup "chunk_2") =
      some (some { chunk_id := "c2",
                   chunk_summary := "Error generating summary: Request timed out." })) ∧
    PipelineEvent.consolidateModelCall
      [ { chunk_id := "c1", chunk_summary := "summary of c1" },
        { chunk_id := "c2",
          chunk_summary := "Error generating summary: Request timed out." },
        { chunk_id := "c3", chunk_summary := "summary of c3" } ] ∈
      (process_chunks_for_recording c2Env "rec1" c2Chunks).2 := by
  decide

/-- C3: in every run of `process_chunks_for_recording` that reaches the
status computation (witnessed by a unified summary in the returned dict,
i.e. non-empty chunk_data and successful persistence), the returned status
is `success` iff `failed_summaries == 0` and `total_chunks > 0`,
`partial_success` iff `0 < successful_summaries < total_chunks`, and
`error` iff `successful_summaries == 0`. -/
theorem c3_status_characterization (env : Env) (rid : String)
    (cd : List (String × String)) (u : UnifiedSummary)
    (h : (process_chunks_for_recording env rid cd).1.unified_summary = some u) :
    ((process_chunks_for_recording env rid cd).1.status = "success" ↔
      (u.failed_summaries = 0 ∧ 0 < u.total_chunks)) ∧
    ((process_chunks_for_recording env rid cd).1.status = "partial_success" ↔
      (0 < u.successful_summaries ∧ u.successful_summaries < u.total_chunks)) ∧
    ((process_chunks_for_recording env rid cd).1.status = "error" ↔
      u.successful_summaries = 0) := by
  cases cd with
  | nil => simp [process_chunks_for_recording] at h
  | cons c cs =>
    cases hstore : store_unified_summary_with_metadata env rid with
    | error e =>
      rw [process_store_error env rid c cs e hstore] at h
      simp at h
    | ok trip =>
      obtain ⟨sid, spath, created⟩ := trip
      rw [process_store_ok env rid c cs sid spath created hstore] at h ⊢
      rw [build_unified_summary_eq] at h ⊢
      dsimp only at h ⊢
      simp only [Option.some.injEq] at h
      subst h
      dsimp only
      refine ⟨⟨fun _ => ⟨rfl, by simp⟩, fun _ => rfl⟩,
        iff_of_false (by decide) (fun hc => absurd hc.2 (by omega)),
        iff_of_false (by decide) (by simp)⟩

/-- Witness for C3 at a concrete one-chunk run. -/
theorem c3_status_characterization_witness :
    ((process_chunks_for_recording sampleEnv "rec" [("a", "x")]).1.unified_summary =
      some sampleUnified) ∧
    (((process_chunks_for_recording sampleEnv "rec" [("a", "x")]).1.status = "success" ↔
      (sampleUnified.failed_summaries = 0 ∧ 0 < sampleUnified.total_chunks)) ∧
     ((process_chunks_for_recording sampleEnv "rec" [("a", "x")]).1.status =
        "partial_success" ↔
      (0 < sampleUnified.successful_summaries ∧
        sampleUnified.successful_summaries < sampleUnified.total_chunks)) ∧
     ((process_chunks_for_recording sampleEnv "rec" [("a", "x")]).1.status = "error" ↔
      sampleUnified.successful_summaries = 0)) :=
  ⟨by decide,
   c3_status_characterization sampleEnv "rec" [("a", "x")] sampleUnified (by decide)⟩

/-- C4: in every unified summary produced by `process_chunks_for_recording`
(both as assembled at Step 3 and as returned in the result dict),
`successful_summaries + failed_summaries = total_chunks` holds and
`total_chunks` is the length of the input chunk_data list. -/
theorem c4_count_invariant :
    (∀ (env : Env) (rid : String) (cd : List (String × String)),
      (build_unified_summary env rid cd).successful_summaries +
          (build_unified_summary env rid cd).failed_summaries =
        (build_unified_summary env rid cd).total_chunks ∧
      (build_unified_summary env rid cd).total_chunks = cd.length) ∧
    (∀ (env : Env) (rid : String) (cd : List (String × String)) (u : UnifiedSummary),
      (process_chunks_for_recording env rid cd).1.unified_summary = some u →
      u.successful_summaries + u.failed_summaries = u.total_chunks ∧
      u.total_chunks = cd.length) := by
  constructor
  · intro env rid cd
    rw [build_unified_summary_eq]
    dsimp only
    exact ⟨by omega, rfl⟩
  · intro env rid cd u h
    cases cd with
    | nil => simp [process_chunks_for_recording] at h
    | cons c cs =>
      cases hstore : store_unified_summary_with_metadata env rid with
      | error e =>
        rw [process_store_error env rid c cs e hstore] at h
        simp at h
      | ok trip =>
        obtain ⟨sid, spath, created⟩ := trip
        rw [process_store_ok env rid c cs sid spath created hstore] at h
        rw [build_unified_summary_eq] at h
        dsimp only at h
        simp only [Option.some.injEq] at h
        subst h
        exact ⟨rfl, rfl⟩

/-- Witness for C4 (its second conjunct carries a hypothesis) at a concrete
one-chunk run. -/
theorem c4_count_invariant_witness :
    ((process_chunks_for_recording sampleEnv "rec" [("a", "x")]).1.unified_summary =
      some sampleUnified) ∧
    (sampleUnified.successful_summaries + sampleUnified.failed_summaries =
        sampleUnified.total_chunks ∧
      sampleUnified.total_chunks = [(("a", "x") : String × String)].length) :=
  ⟨by decide,
   c4_count_invariant.2 sampleEnv "rec" [("a", "x")] sampleUnified (by decide)⟩

/-- C5: a run of `process_chunks_for_recording` over an empty chunk_data
list, and more generally any run in which the per-chunk loop produced zero
chunk summaries, terminates with status `error` without invoking the
consolidation call or the unified-summary storage operation. -/
theorem c5_empty_short_circuit (env : Env) (rid : String)
    (cd : List (String × String))
    (h : cd = [] ∨ (chunk_summary_loop env cd).1 = []) :
    (process_chunks_for_recording env rid cd).1.status = "error" ∧
    (∀ inputs, PipelineEvent.consolidateModelCall inputs ∉
      (process_chunks_for_recording env rid cd).2) ∧
    (∀ r, PipelineEvent.storeUnified r ∉
      (process_chunks_for_recording env rid cd).2) := by
  have hcd : cd = [] := by
    rcases h with h | h
    · exact h
    · cases cd with
      | nil => rfl
      | cons c cs => rw [chunk_summary_loop_eq] at h; simp at h
  subst hcd
  refine ⟨rfl, ?_, ?_⟩ <;> intro x <;> simp [process_chunks_for_recording]

/-- Witness for C5 at the empty chunk list. -/
theorem c5_empty_short_circuit_witness :
    (([] : List (String × String)) = [] ∨
      (chunk_summary_loop sampleEnv []).1 = []) ∧
    ((process_chunks_for_recording sampleEnv "rec" []).1.status = "error" ∧
     (∀ inputs, PipelineEvent.consolidateModelCall inputs ∉
       (process_chunks_for_recording sampleEnv "rec" []).2) ∧
     (∀ r, PipelineEvent.storeUnified r ∉
       (process_chunks_for_recording sampleEnv "rec" []).2)) :=
  ⟨Or.inl rfl, c5_empty_short_circuit sampleEnv "rec" [] (Or.inl rfl)⟩

/-- C6 counterexample: a run in which the metadata-row write fails for a
reason other than duplication (and no row for the identifier exists) does
not end in status `error` — the insert failure is swallowed and the run
returns `success`. -/
theorem c6_counterexample_row_failure_not_error :
    is_duplicate_error "connection reset by peer" = false ∧
    c6RowFailEnv.selectExisting c6RowFailEnv.summaryUuid = [] ∧
    c6RowFailEnv.insertResult c6RowFailEnv.summaryUuid =
      .error "connection reset by peer" ∧
    (process_chunks_for_recording c6RowFailEnv "rec" [("c1", "t1")]).1.status =
      "success" :=
  ⟨by decide, rfl, rfl, by decide⟩

/-- C6 (amended): only blob-write failures propagate — a non-duplicate
upload failure raises out of `_store_unified_summary_with_metadata` and the
orchestrator maps it to status `error`; a metadata-row insert failure never
raises (whether or not a row exists), so it leaves the run's status to the
summary counts. -/
theorem c6_blob_failure_propagates :
    (∀ (env : Env) (rid : String) (c : String × String)
      (cs : List (String × String)) (msg : String),
      env.uploadResult (env.summaryUuid ++ ".json") = .error msg →
      is_duplicate_error msg = false →
      (process_chunks_for_recording env rid (c :: cs)).1.status = "error") ∧
    (∀ (env : Env) (rid m2 : String),
      env.uploadResult (env.summaryUuid ++ ".json") = .ok () →
      env.insertResult env.summaryUuid = .error m2 →
      store_unified_summary_with_metadata env rid =
        .ok (env.summaryUuid, "Summaries/" ++ (env.summaryUuid ++ ".json"), [])) := by
  constructor
  · intro env rid c cs msg hup hdup
    have hstore : store_unified_summary_with_metadata env rid = .error msg := by
      simp [store_unified_summary_with_metadata, hup, hdup]
    rw [process_store_error env rid c cs msg hstore]
  · intro env rid m2 hup hins
    simp [store_unified_summary_with_metadata, hup, hins]

/-- Witness for C6 (amended) at concrete runs: a hard blob failure yields
status `error`; a hard row failure is swallowed by the storage helper. -/
theorem c6_blob_failure_propagates_witness :
    ((process_chunks_for_recording c6BlobFailEnv "rec" [("c1", "t1")]).1.status =
      "error") ∧
    (store_unified_summary_with_metadata c6RowFailEnv "rec" =
      .ok (c6RowFailEnv.summaryUuid,
           "Summaries/" ++ (c6RowFailEnv.summaryUuid ++ ".json"), [])) :=
  ⟨c6_blob_failure_propagates.1 c6BlobFailEnv "rec" ("c1", "t1") []
     "storage backend unavailable" rfl (by decide),
   c6_blob_failure_propagates.2 c6RowFailEnv "rec" "connection reset by peer"
     rfl rfl⟩

/-- C7: for a recording whose status is already `summarized` and whose
persisted unified summary is retrievable, invoking `summarize_recording`
again returns exactly the previously persisted unified summary (with its
stored summary id and path) and performs no transcription, no chunking and
no model call — the returned event list is empty. -/
theorem c7_already_summarized_short_circuit (env : OrchEnv) (rid : String)
    (info : RecordingRow) (ex : ExistingSummary)
    (h1 : env.recordingInfo = some info)
    (h2 : info.status = some "summarized")
    (h3 : get_existing_summary env = some ex) :
    summarize_recording env rid =
      ({ status := "success",
         message := "Summaries already exist for this recording",
         recording_id := rid, unified_summary := some ex.unified_summary,
         summary_id := some ex.summary_id, summary_path := some ex.summary_path,
         already_existed := true }, []) := by
  simp [summarize_recording, h1, h2, h3]

/-- Witness for C7 at a concrete environment. -/
theorem c7_already_summarized_short_circuit_witness :
    (c7Env.recordingInfo = some { status := some "summarized" }) ∧
    (({ status := some "summarized" } : RecordingRow).status = some "summarized") ∧
    (get_existing_summary c7Env = some c7Existing) ∧
    summarize_recording c7Env "rec" =
      ({ status := "success",
         message := "Summaries already exist for this recording",
         recording_id := "rec", unified_summary := some c7Existing.unified_summary,
         summary_id := some c7Existing.summary_id,
         summary_path := some c7Existing.summary_path,
         already_existed := true }, []) :=
  ⟨rfl, rfl, by decide,
   c7_already_summarized_short_circuit c7Env "rec" { status := some "summarized" }
     c7Existing rfl rfl (by decide)⟩

theorem store_chunks_loop_retry (env : Env) (rid tid : String)
    (pairs : List (String × String))
    (hup : ∀ p ∈ pairs, ∃ m,
      env.uploadResult (rid ++ "/" ++ tid ++ "/" ++ p.1 ++ ".json") = .error m ∧
      is_duplicate_error m = true)
    (hins : ∀ p ∈ pairs,
      (∃ m, env.insertResult p.1 = .error m) ∧
      (env.selectExisting p.1).isEmpty = false) :
    store_chunks_loop env rid tid pairs = .ok [] := by
  induction pairs with
  | nil => rfl
  | cons p ps ih =>
    obtain ⟨c, t⟩ := p
    obtain ⟨m, hm, hdup⟩ := hup (c, t) (List.mem_cons_self _ _)
    obtain ⟨⟨m2, hm2⟩, hsel⟩ := hins (c, t) (List.mem_cons_self _ _)
    have ihr := ih (fun q hq => hup q (List.mem_cons_of_mem _ hq))
      (fun q hq => hins q (List.mem_cons_of_mem _ hq))
    simp [store_chunks_loop, hm, hdup, hm2, hsel, ihr]

/-- C8: re-invoking the persistence operations after a prior successful
write — so that every blob upload hits an existing object (duplicate-class
error) and every metadata insert conflicts with an existing row — raises no
exception and inserts no second metadata row for any identifier: both
`store_chunks` and `_store_unified_summary_with_metadata` complete normally
with an empty list of newly created rows. -/
theorem c8_idempotent_reinvocation :
    (∀ (env : Env) (rid tid : String) (chunks chunk_uuids : List String)
      (uid : String),
      (∀ p ∈ chunk_uuids.zip chunks, ∃ m,
        env.uploadResult (rid ++ "/" ++ tid ++ "/" ++ p.1 ++ ".json") = .error m ∧
        is_duplicate_error m = true) →
      (∀ p ∈ chunk_uuids.zip chunks,
        (∃ m, env.insertResult p.1 = .error m) ∧
        (env.selectExisting p.1).isEmpty = false) →
      store_chunks env rid tid chunks chunk_uuids uid = .ok []) ∧
    (∀ (env : Env) (rid m m2 : String),
      env.uploadResult (env.summaryUuid ++ ".json") = .error m →
      is_duplicate_error m = true →
      env.updateResult (env.summaryUuid ++ ".json") = .ok () →
      env.insertResult env.summaryUuid = .error m2 →
      store_unified_summary_with_metadata env rid =
        .ok (env.summaryUuid, "Summaries/" ++ (env.summaryUuid ++ ".json"), [])) := by
  constructor
  · intro env rid tid chunks chunk_uuids uid hup hins
    exact store_chunks_loop_retry env rid tid (chunk_uuids.zip chunks) hup hins
  · intro env rid m m2 hup hdup hupd hins
    simp [store_unified_summary_with_metadata, hup, hdup, hupd, hins]

/-- Witness for C8 at a concrete one-chunk retry. -/
theorem c8_idempotent_reinvocation_witness :
    store_chunks c8RetryEnv "rec" "tr" ["chunk text"] ["id1"] "user" = .ok [] ∧
    store_unified_summary_with_metadata c8RetryEnv "rec" =
      .ok (c8RetryEnv.summaryUuid,
           "Summaries/" ++ (c8RetryEnv.summaryUuid ++ ".json"), []) :=
  ⟨c8_idempotent_reinvocation.1 c8RetryEnv "rec" "tr" ["chunk text"] ["id1"] "user"
     (by
       intro p hp
       have hp' : p = ("id1", "chunk text") := by simpa using hp
       subst hp'
       exact ⟨"Duplicate object already exists", rfl, by decide⟩)
     (by
       intro p hp
       have hp' : p = ("id1", "chunk text") := by simpa using hp
       subst hp'
       exact ⟨⟨"duplicate key value violates unique constraint", rfl⟩, rfl⟩),
   c8_idempotent_reinvocation.2 c8RetryEnv "rec" "Duplicate object already exists"
     "duplicate key value violates unique constraint" rfl (by decide) rfl rfl⟩

theorem string_append_ne_empty_right (s t : String) (ht : t.length ≠ 0) :
    s ++ t ≠ "" := by
  intro h
  have hl := congrArg String.length h
  rw [String.length_append] at hl
  have h0 : ("" : String).length = 0 := rfl
  omega

theorem string_append_ne_empty_left (s t : String) (hs : s.length ≠ 0) :
    s ++ t ≠ "" := by
  intro h
  have hl := congrArg String.length h
  rw [String.length_append] at hl
  have h0 : ("" : String).length = 0 := rfl
  omega

theorem contains_sub_append_right (s t : String) : strContainsSub (s ++ t) t = true := by
  simp only [strContainsSub, decide_eq_true_eq]
  rw [String.data_append]
  exact (List.suffix_append s.data t.data).isInfix

/-- C9 (amended): when the consolidation call succeeds but its text does not
parse as JSON, `_synthesize_chunk_summaries_to_consolidated` returns the
fully populated fallback record — executive_summary the 300-character
truncated prefix of the raw response with an ellipsis, key_points one
bulleted excerpt, detailed_summary the full raw response.  When the call
itself raises, it returns a fully populated record whose executive and
detailed summaries contain the error description and whose key_points is
the fixed error-marker bullet. -/
theorem c9_consolidation_fallbacks_wellformed :
    (∀ (env : Env) (inputs : List ChunkSummaryJson) (text : String),
      env.consolidateCall inputs = .ok text →
      env.parseJson text = none →
      synthesize_chunk_summaries_to_consolidated env inputs =
        { executive_summary := text.take 300 ++ "..."
          key_points := "• " ++ text.take 200 ++ "..."
          detailed_summary := text } ∧
      (synthesize_chunk_summaries_to_consolidated env inputs).executive_summary ≠ "" ∧
      (synthesize_chunk_summaries_to_consolidated env inputs).key_points ≠ "") ∧
    (∀ (env : Env) (inputs : List ChunkSummaryJson) (e : String),
      env.consolidateCall inputs = .error e →
      synthesize_chunk_summaries_to_consolidated env inputs =
        { executive_summary := "Error synthesizing summary: " ++ e
          key_points := "• Error occurred during synthesis"
          detailed_summary := "Error synthesizing summary: " ++ e } ∧
      strContainsSub
        (synthesize_chunk_summaries_to_consolidated env inputs).executive_summary
        e = true ∧
      strContainsSub
        (synthesize_chunk_summaries_to_consolidated env inputs).detailed_summary
        e = true ∧
      (synthesize_chunk_summaries_to_consolidated env inputs).executive_summary ≠ "" ∧
      (synthesize_chunk_summaries_to_consolidated env inputs).key_points ≠ "" ∧
      (synthesize_chunk_summaries_to_consolidated env inputs).detailed_summary ≠ "") := by
  constructor
  · intro env inputs text hok hnone
    have hs : synthesize_chunk_summaries_to_consolidated env inputs =
        { executive_summary := text.take 300 ++ "..."
          key_points := "• " ++ text.take 200 ++ "..."
          detailed_summary := text } := by
      simp [synthesize_chunk_summaries_to_consolidated, hok, hnone]
    refine ⟨hs, ?_, ?_⟩
    · rw [hs]
      exact string_append_ne_empty_right _ "..." (by decide)
    · rw [hs]
      exact string_append_ne_empty_right _ "..." (by decide)
  · intro env inputs e herr
    have hs : synthesize_chunk_summaries_to_consolidated env inputs =
        { executive_summary := "Error synthesizing summary: " ++ e
          key_points := "• Error occurred during synthesis"
          detailed_summary := "Error synthesizing summary: " ++ e } := by
      simp [synthesize_chunk_summaries_to_consolidated, herr]
    refine ⟨hs, ?_, ?_, ?_, ?_, ?_⟩ <;> rw [hs]
    · exact contains_sub_append_right _ e
    · exact contains_sub_append_right _ e
    · exact string_append_ne_empty_left "Error synthesizing summary: " e (by decide)
    · dsimp only
      decide
    · exact string_append_ne_empty_left "Error synthesizing summary: " e (by decide)

/-- C9 counterexample: when the consolidation call raises, `key_points` is
the fixed bullet `"• Error occurred during synthesis"`, which does not
contain the error description (here `"Request timed out."`), so the three
fields do not all contain the error description as the claim states. -/
theorem c9_counterexample_key_points :
    (synthesize_chunk_summaries_to_consolidated c9RaiseEnv []).key_points =
      "• Error occurred during synthesis" ∧
    strContainsSub
      (synthesize_chunk_summaries_to_consolidated c9RaiseEnv []).key_points
      "Request timed out." = false := by
  decide

/-- Witness for C9 (amended) at concrete environments. -/
theorem c9_consolidation_fallbacks_wellformed_witness :
    (synthesize_chunk_summaries_to_consolidated c9ParseFailEnv [] =
      { executive_summary := ("plain text response" : String).take 300 ++ "..."
        key_points := "• " ++ ("plain text response" : String).take 200 ++ "..."
        detailed_summary := "plain text response" } ∧
     (synthesize_chunk_summaries_to_consolidated c9ParseFailEnv []).executive_summary ≠ "" ∧
     (synthesize_chunk_summaries_to_consolidated c9ParseFailEnv []).key_points ≠ "") ∧
    (synthesize_chunk_summaries_to_consolidated c9RaiseEnv [] =
      { executive_summary := "Error synthesizing summary: " ++ "Request timed out."
        key_points := "• Error occurred during synthesis"
        detailed_summary := "Error synthesizing summary: " ++ "Request timed out." } ∧
     strContainsSub
       (synthesize_chunk_summaries_to_consolidated c9RaiseEnv []).executive_summary
       "Request timed out." = true ∧
     strContainsSub
       (synthesize_chunk_summaries_to_consolidated c9RaiseEnv []).detailed_summary
       "Request timed out." = true ∧
     (synthesize_chunk_summaries_to_consolidated c9RaiseEnv []).executive_summary ≠ "" ∧
     (synthesize_chunk_summaries_to_consolidated c9RaiseEnv []).key_points ≠ "" ∧
     (synthesize_chunk_summaries_to_consolidated c9RaiseEnv []).detailed_summary ≠ "") :=
  ⟨c9_consolidation_fallbacks_wellformed.1 c9ParseFailEnv [] "plain text response" rfl rfl,
   c9_consolidation_fallbacks_wellformed.2 c9RaiseEnv [] "Request timed out." rfl⟩

/-- C10 counterexample: the whitespace-only input `"   "` is a non-empty
string for which `preprocess_and_chunk_text` returns zero chunks — the
normalization step collapses and strips it to the empty string before the
splitter runs. -/
theorem c10_counterexample_whitespace_input :
    ("   " : String) ≠ "" ∧ preprocess_and_chunk_text "   " 2000 200 = [] := by
  refine ⟨by decide, ?_⟩
  have hclean : clean_and_normalize_text "   " = "" := by decide
  simp only [preprocess_and_chunk_text, chunk_with_langchain, hclean]
  rw [split_text_model_nil]
  rfl

/-- C10 (amended): `preprocess_and_chunk_text` returns zero chunks exactly
when the cleaned, normalized input is empty — that is, for the empty string
and for whitespace-only strings; every input containing a non-whitespace
character yields at least one chunk. -/
theorem c10_chunks_empty_iff_cleaned_empty (text : String) (cs co : Nat) :
    preprocess_and_chunk_text text cs co = [] ↔
      clean_and_normalize_text text = "" := by
  simp only [preprocess_and_chunk_text, chunk_with_langchain]
  rw [List.map_eq_nil_iff, split_text_model_eq_nil_iff]
  constructor
  · intro h
    exact String.ext h
  · intro h
    rw [h]

